import Mathlib

/-!
Shallow embedding of the pepper repository (a Go SSH/server toolkit):
the keystore (src/unnamed/part_009), the error taxonomy
(src/unnamed/part_006), the authentication callbacks
(src/unnamed/part_004), the base server accept loop and Stop
(src/base/server.go), and the channel/request dispatch
(src/ssh/connection.go).

External collaborators (the golang.org/x/crypto/ssh transport, net,
logging) are modelled as parameters or as plain data: a public key is
represented by the two observations the code makes of it (its
algorithm-type string `Type()` and its marshalled bytes `Marshal()`),
a signer is an opaque token, PEM parsing is an explicit function
parameter, and log output is accumulated as a list of strings.
-/

namespace Pepper

/-- A signer (`ssh.Signer`) is opaque to this code base: the keystore only
stores and returns it.  We represent it by an identifying token. -/
structure Signer where
  sid : Nat
deriving DecidableEq, Repr

/-- The two observations the repository makes of an `ssh.PublicKey`:
its algorithm-type string `Type()` and its wire encoding `Marshal()`. -/
structure PublicKey where
  keyType : String
  marshalled : List Nat
deriving DecidableEq, Repr

/-- The error values the modelled code can produce.  Sentinel errors from
src/unnamed/part_006 (`ErrKeyNotSupported`, `ErrAuthFailed`, `ErrNoPrivateKey`),
`ErrNoHostKey` from src/unnamed/part_009, the wrapping struct
`ErrAuthFailedReason`, plus the library sentinels `sql.ErrNoRows` and
`context.Canceled` and a constructor for arbitrary other errors. -/
inductive GoError where
  | errKeyNotSupported
  | errAuthFailed
  | errAuthFailedReason (reason : GoError)
  | errNoPrivateKey
  | errNoHostKey
  | sqlErrNoRows
  | contextCanceled
  | other (msg : String)
deriving DecidableEq, Repr

/-- The `Error()` rendering of each error, mirroring part_006: the wrapper
formats as `authentication failed: <reason>`. -/
def GoError.message : GoError → String
  | .errKeyNotSupported => "key type not supported"
  | .errAuthFailed => "authentication failed"
  | .errAuthFailedReason r => "authentication failed: " ++ r.message
  | .errNoPrivateKey => "no private key provided"
  | .errNoHostKey => "no host key set"
  | .sqlErrNoRows => "sql: no rows in result set"
  | .contextCanceled => "context canceled"
  | .other msg => msg

/-- The unwrap chain of an error: the error itself followed by what its
`Unwrap()` method yields, iterated.  The only wrapper in the modelled code is
`ErrAuthFailedReason`, whose `Unwrap()` returns the sentinel `ErrAuthFailed`
(part_006 lines 44-47); every other error has no `Unwrap`. -/
def GoError.unwrapChain : GoError → List GoError
  | .errAuthFailedReason r => [.errAuthFailedReason r, .errAuthFailed]
  | e => [e]

/-- Go `errors.Is(err, target)`: true when `target` appears in the unwrap
chain of `err` (none of the modelled errors defines an `Is` method). -/
def errorsIs (err target : GoError) : Bool :=
  err.unwrapChain.contains target

/-- Go `errors.Is` on a nullable error: `errors.Is(nil, target)` is false for
the non-nil sentinels used here. -/
def optErrorsIs : Option GoError → GoError → Bool
  | none, _ => false
  | some e, target => errorsIs e target

/-! ## Keystore (src/unnamed/part_009, the `sshKeystore`)

The state is the `hostKey` field (nil-able `ssh.Signer`) and the
`userKeys` Go map, modelled as its lookup function. -/

/-- The state of the in-memory `sshKeystore`: one optional host signer and
the `userKeys` map from identifier to public key. -/
structure SshKeystore where
  hostKey : Option Signer
  userKeys : String → Option PublicKey

/-- The `comparePublickeys` helper: false when the algorithm-type strings
differ, otherwise byte-for-byte equality of the marshalled encodings. -/
def comparePublickeys (a b : PublicKey) : Bool :=
  if a.keyType != b.keyType then
    false
  else
    a.marshalled == b.marshalled

/-- Go method `SetHostKey`: parse the PEM bytes (parsing is the external
`ssh.ParsePrivateKey`, passed as a function); on error return it with the
state untouched, on success replace the host key. -/
def SetHostKey (parsePrivateKey : List Nat → Except GoError Signer)
    (ks : SshKeystore) (pemBytes : List Nat) :
    Option GoError × SshKeystore :=
  match parsePrivateKey pemBytes with
  | Except.error e => (some e, ks)
  | Except.ok signer => (none, { ks with hostKey := some signer })

/-- Go method `GetHostKey`: returns the pair of named results `(key, err)`;
when the host key is nil the error is `ErrNoHostKey` and the key result
stays at its zero value. -/
def GetHostKey (ks : SshKeystore) : Option Signer × Option GoError :=
  match ks.hostKey with
  | none => (none, some GoError.errNoHostKey)
  | some k => (some k, none)

/-- Go method `AddKnownHost`: store (overwriting) the key under the
identifier; always returns a nil error. -/
def AddKnownHost (ks : SshKeystore) (hostIdentifier : String)
    (key : PublicKey) : Option GoError × SshKeystore :=
  (none,
   { ks with
     userKeys := fun id =>
       if id = hostIdentifier then some key else ks.userKeys id })

/-- Go method `CheckKnownHost`: look up the identifier in `userKeys`; if
absent return `(false, nil)`, otherwise compare the stored key with the
supplied key; never returns a non-nil error. -/
def CheckKnownHost (ks : SshKeystore) (hostIdentifier : String)
    (key : PublicKey) : Bool × Option GoError :=
  match ks.userKeys hostIdentifier with
  | none => (false, none)
  | some knownKey => (comparePublickeys knownKey key, none)

/-- Go constructor `NewKeystore`: reject empty key material with
`ErrNoPrivateKey`; parse with or without passphrase depending on whether the
passphrase is empty; on success the keystore starts with the parsed host key
and an empty `userKeys` map. -/
def NewKeystore (parsePrivateKey : List Nat → Except GoError Signer)
    (parseWithPassphrase : List Nat → String → Except GoError Signer)
    (privatePemBytes : List Nat) (passphrase : String) :
    Except GoError SshKeystore :=
  if privatePemBytes.length = 0 then
    Except.error GoError.errNoPrivateKey
  else
    match
      (if passphrase.length = 0 then
        parsePrivateKey privatePemBytes
      else
        parseWithPassphrase privatePemBytes passphrase) with
    | Except.error e => Except.error e
    | Except.ok signer =>
        Except.ok { hostKey := some signer, userKeys := fun _ => none }

/-- Fold a list of `AddKnownHost` calls over a keystore state, in order. -/
def applyAdds (ks : SshKeystore) : List (String × PublicKey) → SshKeystore
  | [] => ks
  | (id, k) :: rest => applyAdds (AddKnownHost ks id k).2 rest

/-! ## Authentication callbacks (src/unnamed/part_004)

`ssh.ConnMetadata` is observed only through `User()` (and `RemoteAddr()`
for logging); `ssh.FingerprintSHA256` is an external hash, modelled as an
injective stand-in whose value none of the claims depends on. -/

/-- The observations made of `ssh.ConnMetadata`. -/
structure ConnMetadata where
  user : String
  remoteAddr : String
deriving DecidableEq, Repr

/-- Stand-in for the external `ssh.FingerprintSHA256` hash of a key. -/
def FingerprintSHA256 (key : PublicKey) : String :=
  "SHA256:" ++ key.keyType ++ String.intercalate "," (key.marshalled.map toString)

/-- The `ssh.Permissions` record built on successful public-key auth. -/
structure Permissions where
  criticalOptions : List (String × String)
  extensions : List (String × String)
deriving DecidableEq, Repr

/-- Go method `PublicKeyCallback` (part_004 lines 21-42).  The server state
enters through `supportedKeyTypes` and through the keystore
method `CheckKnownHost`, passed as a function so the callback can be stated
against any `Keystore` implementation: (a) a key whose type is not in
`supportedKeyTypes` is rejected with `ErrKeyNotSupported`; (b) otherwise
`CheckKnownHost(c.User(), pubKey)` is consulted, a non-`sql.ErrNoRows`
error is wrapped in `ErrAuthFailedReason`, and both `!ok` and
`sql.ErrNoRows` become the generic `ErrAuthFailed`; (c) on success a
permissions record with the fingerprint and forwarding extensions. -/
def PublicKeyCallback (supportedKeyTypes : List String)
    (checkKnownHost : String → PublicKey → Bool × Option GoError)
    (c : ConnMetadata) (pubKey : PublicKey) :
    Except GoError Permissions :=
  if !(supportedKeyTypes.contains pubKey.keyType) then
    Except.error GoError.errKeyNotSupported
  else
    match checkKnownHost c.user pubKey with
    | (ok, err) =>
      if err.isSome && !(optErrorsIs err GoError.sqlErrNoRows) then
        Except.error (GoError.errAuthFailedReason
          (err.getD GoError.errAuthFailed))
      else if !ok || optErrorsIs err GoError.sqlErrNoRows then
        Except.error GoError.errAuthFailed
      else
        Except.ok
          { criticalOptions := [("pubkey-fp", FingerprintSHA256 pubKey)],
            extensions :=
              [("permit-X11-forwarding", "true"),
               ("permit-agent-forwarding", "true")] }

/-- Go method `PasswordAuth`: unconditionally fails with a wrapped
authentication error. -/
def PasswordAuth (conn : ConnMetadata) (password : List Nat) :
    Except GoError Permissions :=
  Except.error (GoError.errAuthFailedReason
    (GoError.other "authentication method not supported"))

/-- Go method `NoAuthCallback`: unconditionally fails with a wrapped
authentication error. -/
def NoAuthCallback (conn : ConnMetadata) : Except GoError Permissions :=
  Except.error (GoError.errAuthFailedReason
    (GoError.other "authentication method not supported"))

/-- Go method `KeyboardInteractiveAuth`: unconditionally fails with a
wrapped authentication error. -/
def KeyboardInteractiveAuth (conn : ConnMetadata) :
    Except GoError Permissions :=
  Except.error (GoError.errAuthFailedReason
    (GoError.other "authentication method not supported"))

/-- The `CheckKnownHost` of the in-memory `sshKeystore`, in the shape the
callback consumes. -/
def keystoreCheck (ks : SshKeystore) : String → PublicKey → Bool × Option GoError :=
  fun user key => CheckKnownHost ks user key

/-! ## Base server accept loop and Stop (src/base/server.go)

An accept error is observed through the type assertion
`err.(net.Error).Timeout()` and through `errors.Is(err, net.ErrClosed)`,
in that order; we record the two observations as fields.  The `Serve`
accept loop (lines 256-286) is modelled over a finite trace of accept
events; the worker-pool submission result of an accepted connection is
part of the event. -/

/-- An error returned by `listener.Accept()`, observed through
`Timeout()` and `errors.Is(err, net.ErrClosed)`. -/
structure NetError where
  isTimeout : Bool
  isClosed : Bool
  msg : String
deriving DecidableEq, Repr

/-- The input of one iteration of the `Serve` accept loop: either `Accept`
returned a connection (whose subsequent `AddWorker` submission yields the
recorded result), or it returned an error. -/
inductive AcceptEvent where
  | accepted (remoteAddr : String) (addWorkerErr : Option GoError)
  | acceptError (e : NetError)
deriving DecidableEq, Repr

/-- How a run of the `Serve` loop ended on a finite trace. -/
inductive ServeOutcome where
  | outOfEvents
  | cleanReturn
  | acceptErrorReturn (e : NetError)
  | workerErrorReturn (e : GoError)
deriving DecidableEq, Repr

/-- The `Serve` accept loop (server.go lines 256-286) over a finite trace
of accept events, accumulating log lines: a timeout-class accept error is
logged at debug and the loop continues; a `net.ErrClosed` accept error
returns nil; any other accept error is returned; an accepted connection
is logged and submitted, and a submission error is logged and returned. -/
def serveLoop : List AcceptEvent → List String → ServeOutcome × List String
  | [], logs => (ServeOutcome.outOfEvents, logs)
  | AcceptEvent.acceptError e :: rest, logs =>
    if e.isTimeout then
      serveLoop rest (logs ++ ["Accept timed out"])
    else if e.isClosed then
      (ServeOutcome.cleanReturn, logs ++ ["Listener closed"])
    else
      (ServeOutcome.acceptErrorReturn e, logs)
  | AcceptEvent.accepted addr workerErr :: rest, logs =>
    let logs := logs ++ ["Accepted connection from " ++ addr]
    match workerErr with
    | some e => (ServeOutcome.workerErrorReturn e, logs ++ [e.message])
    | none => serveLoop rest logs

/-- Go method `Stop` (server.go lines 315-330).  Inputs are the results of
the calls it makes: `ctx.Err()`, `listener.Close()`, `workers.Stop(ctx)`
(whose result the code discards), and `Logger.Shutdown()`.  A non-canceled
context error and a listener-close error are logged; only a logger-shutdown
error is returned. -/
def Stop (ctxErr : Option GoError) (listenerCloseErr : Option GoError)
    (poolStopResult : Option GoError) (loggerShutdownErr : Option GoError) :
    Option GoError × List String :=
  let logs :=
    match ctxErr with
    | some e => if !(errorsIs e GoError.contextCanceled) then [e.message] else []
    | none => []
  let logs :=
    logs ++
      (match listenerCloseErr with
       | some e => [e.message]
       | none => [])
  match loggerShutdownErr with
  | some e => (some e, logs)
  | none => (none, logs)

/-! ## Channel and request dispatch (src/ssh/connection.go)

A new channel is observed through `ChannelType()` and through the result
of `Accept()` (the request stream on success); a request through `Type`,
`Payload` and `WantReply`.  The observable behaviour of a handler is the reply
it issues (if any), its log lines, and its returned error. -/

/-- The observations made of an inbound `*ssh.Request`. -/
structure Request where
  reqType : String
  payload : List Nat
  wantReply : Bool
deriving DecidableEq, Repr

/-- A reply sent via `req.Reply(ok, payload)`. -/
structure Reply where
  granted : Bool
  payload : Option (List Nat)
deriving DecidableEq, Repr

/-- The observable behaviour of a request handler on one request: the
reply it sends (if any), its log lines, and its returned error. -/
structure RequestResult where
  reply : Option Reply
  logs : List String
  handlerErr : Option GoError
deriving DecidableEq, Repr

/-- Go method `DefaultRequestHandler` (connection.go lines 60-67): log the
request type, payload and want-reply flag at debug, reply
`Reply(false, nil)`, and return nil. -/
def DefaultRequestHandler (req : Request) : RequestResult :=
  { reply := some { granted := false, payload := none },
    logs :=
      ["Request " ++ req.reqType,
       "Request Payload " ++ toString req.payload,
       "Request WantReply " ++ toString req.wantReply],
    handlerErr := none }

/-- The request-handler lookup inside `DefaultChannelHandler` (connection.go
lines 43-46): the entry of `RequestHandlers` for the type of the request, or
`DefaultRequestHandler` when absent. -/
def lookupRequestHandler (requestHandlers : String → Option (Request → RequestResult))
    (req : Request) : Request → RequestResult :=
  match requestHandlers req.reqType with
  | some h => h
  | none => DefaultRequestHandler

/-- The action a channel handler takes on an incoming `ssh.NewChannel`:
accept it, or reject it with a reason string. -/
inductive ChannelAction where
  | accept
  | reject (reason : String)
deriving DecidableEq, Repr

/-- The observations made of an `ssh.NewChannel`: its declared type and
what its `Accept()` call yields (the request stream, or an error). -/
structure NewChannel where
  channelType : String
  acceptResult : Except GoError (List Request)
deriving Repr

/-- The observable behaviour of a channel handler on one channel: the
action taken on the channel, the per-request results, and the error
the handler returned. -/
structure ChannelResult where
  action : ChannelAction
  requestResults : List RequestResult
  handlerErr : Option GoError
deriving Repr

/-- Go method `DefaultChannelHandler` (connection.go lines 37-58): call
`channel.Accept()` (returning its error if it fails), then dispatch each
inbound request to the registered handler for its type, falling back to
`DefaultRequestHandler`, and return nil after all requests are handled. -/
def DefaultChannelHandler (requestHandlers : String → Option (Request → RequestResult))
    (channel : NewChannel) : ChannelResult :=
  match channel.acceptResult with
  | Except.error e =>
    { action := ChannelAction.accept, requestResults := [], handlerErr := some e }
  | Except.ok requests =>
    { action := ChannelAction.accept,
      requestResults := requests.map (fun req => lookupRequestHandler requestHandlers req req),
      handlerErr := none }

/-- The channel-handler lookup inside `WorkConnect` (connection.go lines
20-23): the entry of `ChannelHandlers` for the declared type of the
channel, or `DefaultChannelHandler` (with the request handlers of the
server) when absent. -/
def lookupChannelHandler (channelHandlers : String → Option (NewChannel → ChannelResult))
    (requestHandlers : String → Option (Request → RequestResult))
    (channel : NewChannel) : NewChannel → ChannelResult :=
  match channelHandlers channel.channelType with
  | some h => h
  | none => DefaultChannelHandler requestHandlers

/-! ## Helper lemmas -/

/-- Adding a known host leaves the entry of every other identifier unchanged. -/
theorem addKnownHost_userKeys_other (ks : SshKeystore) (id id2 : String)
    (k : PublicKey) (h : id2 ≠ id) :
    ((AddKnownHost ks id k).2).userKeys id2 = ks.userKeys id2 := by
  simp [AddKnownHost, h]

/-- A sequence of `AddKnownHost` calls never touching an identifier leaves
its entry unchanged. -/
theorem applyAdds_userKeys_of_not_mem (ks : SshKeystore)
    (ops : List (String × PublicKey)) (id : String)
    (h : id ∉ ops.map Prod.fst) :
    (applyAdds ks ops).userKeys id = ks.userKeys id := by
  induction ops generalizing ks with
  | nil => rfl
  | cons hd tl ih =>
    simp only [List.map_cons, List.mem_cons, not_or] at h
    rw [applyAdds, ih _ h.2, addKnownHost_userKeys_other _ _ _ _ h.1]

/-- A key compares equal to itself under `comparePublickeys`. -/
theorem comparePublickeys_self (k : PublicKey) : comparePublickeys k k = true := by
  simp [comparePublickeys]

/-- `comparePublickeys` is false whenever the type strings or the
marshalled bytes differ. -/
theorem comparePublickeys_ne (a b : PublicKey)
    (h : a.keyType ≠ b.keyType ∨ a.marshalled ≠ b.marshalled) :
    comparePublickeys a b = false := by
  rcases h with h | h <;> simp [comparePublickeys, h]

/-! ## Claim theorems -/

/-- C2: `CheckKnownHost(id, key)` never returns an error; it returns
`(false, nil)` when `id` has no entry (in particular when `id` was never
passed to `AddKnownHost` starting from a state without it); and when an
entry is present it returns true exactly when the algorithm-type string
of the stored key equals the type of the supplied key and their marshalled
encodings are equal byte-for-byte. -/
theorem checkKnownHost_spec :
    (∀ (ks : SshKeystore) (id : String) (key : PublicKey),
       (CheckKnownHost ks id key).2 = none) ∧
    (∀ (ks : SshKeystore) (id : String) (key : PublicKey),
       ks.userKeys id = none → CheckKnownHost ks id key = (false, none)) ∧
    (∀ (ks : SshKeystore) (id : String) (key : PublicKey),
       ((CheckKnownHost ks id key).1 = true ↔
         ∃ stored, ks.userKeys id = some stored ∧
           stored.keyType = key.keyType ∧
           stored.marshalled = key.marshalled)) ∧
    (∀ (ks : SshKeystore) (ops : List (String × PublicKey)) (id : String)
       (key : PublicKey),
       ks.userKeys id = none → id ∉ ops.map Prod.fst →
       CheckKnownHost (applyAdds ks ops) id key = (false, none)) := by
  refine ⟨?_, ?_, ?_, ?_⟩
  · intro ks id key
    unfold CheckKnownHost
    cases ks.userKeys id <;> rfl
  · intro ks id key h
    simp [CheckKnownHost, h]
  · intro ks id key
    unfold CheckKnownHost
    cases h : ks.userKeys id with
    | none => simp
    | some stored =>
      simp only [Option.some.injEq]
      constructor
      · intro hcmp
        refine ⟨stored, rfl, ?_, ?_⟩ <;>
          by_contra hne <;>
          [skip; exact absurd hcmp (by simp [comparePublickeys_ne stored key (Or.inr hne)])]
        exact absurd hcmp (by simp [comparePublickeys_ne stored key (Or.inl hne)])
      · rintro ⟨st, hst, ht, hm⟩
        cases hst
        simp [comparePublickeys, ht, hm]
  · intro ks ops id key hnone hnotmem
    have := applyAdds_userKeys_of_not_mem ks ops id hnotmem
    simp [CheckKnownHost, this, hnone]

/-- C2 witness: on a keystore holding one key for `alice`, the error
component is nil, a never-added identifier yields `(false, nil)` (also
after further unrelated `AddKnownHost` calls), and a byte-for-byte equal
key checks true. -/
theorem checkKnownHost_spec_witness :
    (CheckKnownHost
      { hostKey := none,
        userKeys := fun id =>
          if id = "alice" then some { keyType := "ssh-ed25519", marshalled := [1, 2, 3] }
          else none }
      "alice" { keyType := "ssh-ed25519", marshalled := [1, 2, 3] }).2 = none ∧
    CheckKnownHost { hostKey := none, userKeys := fun _ => none }
      "bob" { keyType := "ssh-ed25519", marshalled := [1, 2, 3] } = (false, none) ∧
    (CheckKnownHost
      { hostKey := none,
        userKeys := fun id =>
          if id = "alice" then some { keyType := "ssh-ed25519", marshalled := [1, 2, 3] }
          else none }
      "alice" { keyType := "ssh-ed25519", marshalled := [1, 2, 3] }).1 = true ∧
    CheckKnownHost
      (applyAdds { hostKey := none, userKeys := fun _ => none }
        [("alice", { keyType := "ssh-ed25519", marshalled := [1, 2, 3] })])
      "bob" { keyType := "ssh-rsa", marshalled := [4] } = (false, none) := by
  refine ⟨checkKnownHost_spec.1 _ "alice" _, checkKnownHost_spec.2.1 _ "bob" _ rfl, ?_, ?_⟩
  · exact (checkKnownHost_spec.2.2.1 _ "alice" _).2
      ⟨{ keyType := "ssh-ed25519", marshalled := [1, 2, 3] }, by simp, rfl, rfl⟩
  · exact checkKnownHost_spec.2.2.2 _ _ "bob" _ rfl (by simp)

/-- C3: with no host key set, `GetHostKey` returns the pair
`(nil, ErrNoHostKey)` — it fails with the distinguished error and never
yields a key-with-nil-error; once a host key is present (in particular
after a successful `SetHostKey`), it is returned without error. -/
theorem getHostKey_spec :
    (∀ ks : SshKeystore, ks.hostKey = none →
       GetHostKey ks = (none, some GoError.errNoHostKey)) ∧
    (∀ (ks : SshKeystore) (k : Signer), ks.hostKey = some k →
       GetHostKey ks = (some k, none)) ∧
    (∀ ks : SshKeystore, (GetHostKey ks).2 = none →
       (GetHostKey ks).1.isSome = true) ∧
    (∀ (parse : List Nat → Except GoError Signer) (ks : SshKeystore)
       (pem : List Nat) (s : Signer), parse pem = Except.ok s →
       GetHostKey (SetHostKey parse ks pem).2 = (some s, none)) := by
  refine ⟨?_, ?_, ?_, ?_⟩
  · intro ks h
    simp [GetHostKey, h]
  · intro ks k h
    simp [GetHostKey, h]
  · intro ks
    unfold GetHostKey
    cases ks.hostKey <;> simp
  · intro parse ks pem s h
    simp [SetHostKey, h, GetHostKey]

/-- C3 witness: the empty keystore fails with `ErrNoHostKey`; after a
(successfully parsing) `SetHostKey`, the signer comes back without
error. -/
theorem getHostKey_spec_witness :
    GetHostKey { hostKey := none, userKeys := fun _ => none }
      = (none, some GoError.errNoHostKey) ∧
    GetHostKey
      (SetHostKey (fun _ => Except.ok { sid := 7 })
        { hostKey := none, userKeys := fun _ => none } [0, 1]).2
      = (some { sid := 7 }, none) :=
  ⟨getHostKey_spec.1 _ rfl, getHostKey_spec.2.2.2 _ _ [0, 1] _ rfl⟩

/-- C4: when the supplied key material does not parse, `SetHostKey`
returns the parse error and leaves the keystore state — in particular the
previously stored host key or its absence — exactly as it was; only a
successful parse replaces the host key. -/
theorem setHostKey_spec :
    (∀ (parse : List Nat → Except GoError Signer) (ks : SshKeystore)
       (pem : List Nat) (e : GoError), parse pem = Except.error e →
       SetHostKey parse ks pem = (some e, ks)) ∧
    (∀ (parse : List Nat → Except GoError Signer) (ks : SshKeystore)
       (pem : List Nat) (s : Signer), parse pem = Except.ok s →
       SetHostKey parse ks pem = (none, { ks with hostKey := some s })) := by
  constructor
  · intro parse ks pem e h
    simp [SetHostKey, h]
  · intro parse ks pem s h
    simp [SetHostKey, h]

/-- C4 witness: a failing parse returns the error and the untouched state
(host key still the old signer); a succeeding parse replaces it. -/
theorem setHostKey_spec_witness :
    SetHostKey (fun _ => Except.error (GoError.other "bad pem"))
      { hostKey := some { sid := 3 }, userKeys := fun _ => none } [9]
      = (some (GoError.other "bad pem"),
         { hostKey := some { sid := 3 }, userKeys := fun _ => none }) ∧
    SetHostKey (fun _ => Except.ok { sid := 4 })
      { hostKey := some { sid := 3 }, userKeys := fun _ => none } [9]
      = (none, { hostKey := some { sid := 4 }, userKeys := fun _ => none }) :=
  ⟨setHostKey_spec.1 _ _ [9] _ rfl, setHostKey_spec.2 _ _ [9] _ rfl⟩

/-- C9: two `AddKnownHost` calls for the same identifier leave exactly the
second key stored (overwrite, not merge): the second key then checks
true, a first key differing in type or bytes checks false, and entries
for every other identifier are unchanged. -/
theorem addKnownHost_overwrite :
    ∀ (ks : SshKeystore) (id : String) (k1 k2 : PublicKey),
      ((AddKnownHost (AddKnownHost ks id k1).2 id k2).2).userKeys id = some k2 ∧
      (CheckKnownHost (AddKnownHost (AddKnownHost ks id k1).2 id k2).2 id k2).1 = true ∧
      (k1.keyType ≠ k2.keyType ∨ k1.marshalled ≠ k2.marshalled →
        (CheckKnownHost (AddKnownHost (AddKnownHost ks id k1).2 id k2).2 id k1).1 = false) ∧
      (∀ id2, id2 ≠ id →
        ((AddKnownHost (AddKnownHost ks id k1).2 id k2).2).userKeys id2
          = ks.userKeys id2) := by
  intro ks id k1 k2
  refine ⟨by simp [AddKnownHost], ?_, ?_, ?_⟩
  · simp [CheckKnownHost, AddKnownHost, comparePublickeys_self]
  · intro hne
    have : comparePublickeys k2 k1 = false := by
      apply comparePublickeys_ne
      rcases hne with h | h
      · exact Or.inl (fun hc => h hc.symm)
      · exact Or.inr (fun hc => h hc.symm)
    simp [CheckKnownHost, AddKnownHost, this]
  · intro id2 h
    rw [addKnownHost_userKeys_other _ _ _ _ h, addKnownHost_userKeys_other _ _ _ _ h]

/-- C9 witness: after adding an ed25519 key then an rsa key for `alice`,
only the rsa key is stored and checks true, the ed25519 key checks false,
and `bob` keeps his unrelated entry. -/
theorem addKnownHost_overwrite_witness :
    ((AddKnownHost
        (AddKnownHost
          { hostKey := none,
            userKeys := fun id =>
              if id = "bob" then some { keyType := "ssh-rsa", marshalled := [9] } else none }
          "alice" { keyType := "ssh-ed25519", marshalled := [1, 2, 3] }).2
        "alice" { keyType := "ssh-rsa", marshalled := [4, 5] }).2).userKeys "alice"
      = some { keyType := "ssh-rsa", marshalled := [4, 5] } ∧
    (CheckKnownHost
      (AddKnownHost
        (AddKnownHost
          { hostKey := none,
            userKeys := fun id =>
              if id = "bob" then some { keyType := "ssh-rsa", marshalled := [9] } else none }
          "alice" { keyType := "ssh-ed25519", marshalled := [1, 2, 3] }).2
        "alice" { keyType := "ssh-rsa", marshalled := [4, 5] }).2
      "alice" { keyType := "ssh-ed25519", marshalled := [1, 2, 3] }).1 = false ∧
    ((AddKnownHost
        (AddKnownHost
          { hostKey := none,
            userKeys := fun id =>
              if id = "bob" then some { keyType := "ssh-rsa", marshalled := [9] } else none }
          "alice" { keyType := "ssh-ed25519", marshalled := [1, 2, 3] }).2
        "alice" { keyType := "ssh-rsa", marshalled := [4, 5] }).2).userKeys "bob"
      = some { keyType := "ssh-rsa", marshalled := [9] } := by
  refine ⟨(addKnownHost_overwrite _ "alice" _ _).1, ?_, ?_⟩
  · exact (addKnownHost_overwrite _ "alice" _ _).2.2.1 (Or.inl (by decide))
  · rw [(addKnownHost_overwrite _ "alice" _ _).2.2.2 "bob" (by decide)]
    simp

/-- C1: an unsupported key algorithm is rejected with the distinguished
`ErrKeyNotSupported`, and the result then does not depend on the keystore
(the `CheckKnownHost` function is never consulted); for a supported key
backed by the in-memory keystore, a missing record and a mismatching
record produce the very same generic `ErrAuthFailed`; and every
authentication-failure error any callback returns satisfies
`errors.Is(err, ErrAuthFailed)` (only the distinguished key-type error
does not). -/
theorem publicKeyCallback_auth_spec :
    (∀ (supported : List String)
       (check1 check2 : String → PublicKey → Bool × Option GoError)
       (c : ConnMetadata) (pubKey : PublicKey),
       supported.contains pubKey.keyType = false →
       PublicKeyCallback supported check1 c pubKey
           = Except.error GoError.errKeyNotSupported ∧
       PublicKeyCallback supported check1 c pubKey
           = PublicKeyCallback supported check2 c pubKey) ∧
    (∀ (ks : SshKeystore) (supported : List String) (c : ConnMetadata)
       (pubKey : PublicKey),
       supported.contains pubKey.keyType = true →
       ks.userKeys c.user = none →
       PublicKeyCallback supported (keystoreCheck ks) c pubKey
           = Except.error GoError.errAuthFailed) ∧
    (∀ (ks : SshKeystore) (supported : List String) (c : ConnMetadata)
       (pubKey stored : PublicKey),
       supported.contains pubKey.keyType = true →
       ks.userKeys c.user = some stored →
       comparePublickeys stored pubKey = false →
       PublicKeyCallback supported (keystoreCheck ks) c pubKey
           = Except.error GoError.errAuthFailed) ∧
    (∀ (supported : List String)
       (check : String → PublicKey → Bool × Option GoError)
       (c : ConnMetadata) (pubKey : PublicKey) (e : GoError),
       PublicKeyCallback supported check c pubKey = Except.error e →
       e = GoError.errKeyNotSupported ∨ errorsIs e GoError.errAuthFailed = true) ∧
    (∀ (c : ConnMetadata) (pw : List Nat) (e : GoError),
       PasswordAuth c pw = Except.error e →
       errorsIs e GoError.errAuthFailed = true) ∧
    (∀ (c : ConnMetadata) (e : GoError),
       NoAuthCallback c = Except.error e →
       errorsIs e GoError.errAuthFailed = true) ∧
    (∀ (c : ConnMetadata) (e : GoError),
       KeyboardInteractiveAuth c = Except.error e →
       errorsIs e GoError.errAuthFailed = true) := by
  refine ⟨?_, ?_, ?_, ?_, ?_, ?_, ?_⟩
  · intro supported check1 check2 c pubKey h
    have h2 : pubKey.keyType ∉ supported := by simpa using h
    constructor <;> simp [PublicKeyCallback, h2]
  · intro ks supported c pubKey hsup hnone
    have h2 : pubKey.keyType ∈ supported := by simpa using hsup
    simp [PublicKeyCallback, h2, keystoreCheck, CheckKnownHost, hnone, optErrorsIs]
  · intro ks supported c pubKey stored hsup hstored hcmp
    have h2 : pubKey.keyType ∈ supported := by simpa using hsup
    simp [PublicKeyCallback, h2, keystoreCheck, CheckKnownHost, hstored, hcmp, optErrorsIs]
  · intro supported check c pubKey e h
    unfold PublicKeyCallback at h
    split at h
    · simp only [Except.error.injEq] at h
      exact Or.inl h.symm
    · rcases hr : check c.user pubKey with ⟨ok, err⟩
      rw [hr] at h
      dsimp only at h
      split at h
      · simp only [Except.error.injEq] at h
        right
        rw [← h]
        simp [errorsIs, GoError.unwrapChain]
      · split at h
        · simp only [Except.error.injEq] at h
          right
          rw [← h]
          rfl
        · exact absurd h (by simp)
  · intro c pw e h
    simp only [PasswordAuth, Except.error.injEq] at h
    rw [← h]
    simp [errorsIs, GoError.unwrapChain]
  · intro c e h
    simp only [NoAuthCallback, Except.error.injEq] at h
    rw [← h]
    simp [errorsIs, GoError.unwrapChain]
  · intro c e h
    simp only [KeyboardInteractiveAuth, Except.error.injEq] at h
    rw [← h]
    simp [errorsIs, GoError.unwrapChain]

/-- C1 witness: with supported type list `[ssh-ed25519]`, an `ssh-dss` key
is rejected with `ErrKeyNotSupported` independently of the keystore; for a
supported key, a user with no record and a user with a mismatching record
both get exactly `ErrAuthFailed`; and the error of the password callback
satisfies `errors.Is(err, ErrAuthFailed)`. -/
theorem publicKeyCallback_auth_spec_witness :
    PublicKeyCallback ["ssh-ed25519"]
        (keystoreCheck { hostKey := none, userKeys := fun _ => none })
        { user := "alice", remoteAddr := "10.0.0.1:22" }
        { keyType := "ssh-dss", marshalled := [1] }
      = Except.error GoError.errKeyNotSupported ∧
    PublicKeyCallback ["ssh-ed25519"]
        (keystoreCheck { hostKey := none, userKeys := fun _ => none })
        { user := "alice", remoteAddr := "10.0.0.1:22" }
        { keyType := "ssh-dss", marshalled := [1] }
      = PublicKeyCallback ["ssh-ed25519"] (fun _ _ => (true, some GoError.sqlErrNoRows))
        { user := "alice", remoteAddr := "10.0.0.1:22" }
        { keyType := "ssh-dss", marshalled := [1] } ∧
    PublicKeyCallback ["ssh-ed25519"]
        (keystoreCheck { hostKey := none, userKeys := fun _ => none })
        { user := "alice", remoteAddr := "10.0.0.1:22" }
        { keyType := "ssh-ed25519", marshalled := [1, 2, 3] }
      = Except.error GoError.errAuthFailed ∧
    PublicKeyCallback ["ssh-ed25519"]
        (keystoreCheck
          { hostKey := none,
            userKeys := fun id =>
              if id = "alice" then some { keyType := "ssh-ed25519", marshalled := [7, 7] }
              else none })
        { user := "alice", remoteAddr := "10.0.0.1:22" }
        { keyType := "ssh-ed25519", marshalled := [1, 2, 3] }
      = Except.error GoError.errAuthFailed ∧
    errorsIs (GoError.errAuthFailedReason
        (GoError.other "authentication method not supported"))
      GoError.errAuthFailed = true := by
  refine ⟨?_, ?_, ?_, ?_, ?_⟩
  · exact (publicKeyCallback_auth_spec.1 _ _ (fun _ _ => (true, none)) _ _ (by decide)).1
  · exact (publicKeyCallback_auth_spec.1 _ _ _ _ _ (by decide)).2
  · exact publicKeyCallback_auth_spec.2.1 _ _ _ _ (by decide) rfl
  · exact publicKeyCallback_auth_spec.2.2.1 _ _ _ _
      { keyType := "ssh-ed25519", marshalled := [7, 7] } (by decide) (by simp) (by decide)
  · exact publicKeyCallback_auth_spec.2.2.2.2.1
      { user := "alice", remoteAddr := "10.0.0.1:22" } [3] _ rfl

/-- C10: `AddKnownHost` and `CheckKnownHost` of the in-memory keystore
always return a nil error, so a `PublicKeyCallback` backed by it can never
take the branch wrapping a `CheckKnownHost` error in
`ErrAuthFailedReason`, nor the `sql.ErrNoRows` special case: its result is
always `ErrKeyNotSupported`, `ErrAuthFailed`, or a permissions grant. -/
theorem inMemory_callback_spec :
    (∀ (ks : SshKeystore) (id : String) (key : PublicKey),
       (AddKnownHost ks id key).1 = none) ∧
    (∀ (ks : SshKeystore) (id : String) (key : PublicKey),
       (CheckKnownHost ks id key).2 = none) ∧
    (∀ (ks : SshKeystore) (supported : List String) (c : ConnMetadata)
       (pubKey : PublicKey) (e : GoError),
       PublicKeyCallback supported (keystoreCheck ks) c pubKey
         ≠ Except.error (GoError.errAuthFailedReason e)) ∧
    (∀ (ks : SshKeystore) (supported : List String) (c : ConnMetadata)
       (pubKey : PublicKey),
       PublicKeyCallback supported (keystoreCheck ks) c pubKey
           = Except.error GoError.errKeyNotSupported ∨
       PublicKeyCallback supported (keystoreCheck ks) c pubKey
           = Except.error GoError.errAuthFailed ∨
       ∃ p, PublicKeyCallback supported (keystoreCheck ks) c pubKey = Except.ok p) := by
  have hshape : ∀ (ks : SshKeystore) (supported : List String) (c : ConnMetadata)
      (pubKey : PublicKey),
      PublicKeyCallback supported (keystoreCheck ks) c pubKey
          = Except.error GoError.errKeyNotSupported ∨
      PublicKeyCallback supported (keystoreCheck ks) c pubKey
          = Except.error GoError.errAuthFailed ∨
      ∃ p, PublicKeyCallback supported (keystoreCheck ks) c pubKey = Except.ok p := by
    intro ks supported c pubKey
    unfold PublicKeyCallback
    split
    · exact Or.inl rfl
    · cases hk : ks.userKeys c.user with
      | none =>
        exact Or.inr (Or.inl (by
          simp [keystoreCheck, CheckKnownHost, hk, optErrorsIs]))
      | some stored =>
        cases hcmp : comparePublickeys stored pubKey with
        | false =>
          exact Or.inr (Or.inl (by
            simp [keystoreCheck, CheckKnownHost, hk, hcmp, optErrorsIs]))
        | true =>
          exact Or.inr (Or.inr
            ⟨{ criticalOptions := [("pubkey-fp", FingerprintSHA256 pubKey)],
               extensions :=
                 [("permit-X11-forwarding", "true"),
                  ("permit-agent-forwarding", "true")] },
             by simp [keystoreCheck, CheckKnownHost, hk, hcmp, optErrorsIs]⟩)
  refine ⟨fun ks id key => rfl, ?_, ?_, hshape⟩
  · intro ks id key
    unfold CheckKnownHost
    cases ks.userKeys id <;> rfl
  · intro ks supported c pubKey e hcontra
    rcases hshape ks supported c pubKey with h | h | ⟨p, h⟩ <;>
      rw [hcontra] at h <;> simp at h

/-- C10 witness: on the empty in-memory keystore the add and check calls
return nil errors at concrete inputs, and the callback at a concrete
supported key is not the wrapped-reason error (it is the generic
`ErrAuthFailed`). -/
theorem inMemory_callback_spec_witness :
    (AddKnownHost { hostKey := none, userKeys := fun _ => none } "alice"
        { keyType := "ssh-ed25519", marshalled := [1] }).1 = none ∧
    (CheckKnownHost { hostKey := none, userKeys := fun _ => none } "alice"
        { keyType := "ssh-ed25519", marshalled := [1] }).2 = none ∧
    PublicKeyCallback ["ssh-ed25519"]
        (keystoreCheck { hostKey := none, userKeys := fun _ => none })
        { user := "alice", remoteAddr := "10.0.0.1:22" }
        { keyType := "ssh-ed25519", marshalled := [1] }
      ≠ Except.error (GoError.errAuthFailedReason GoError.sqlErrNoRows) :=
  ⟨inMemory_callback_spec.1 _ "alice" _,
   inMemory_callback_spec.2.1 _ "alice" _,
   inMemory_callback_spec.2.2.1 _ ["ssh-ed25519"] _ _ GoError.sqlErrNoRows⟩

/-- C5: in the `Serve` accept loop a timeout-class accept error is logged
and the loop continues (any finite number of timeouts never ends the
loop), a `net.ErrClosed` accept error ends the loop cleanly, and any
other accept error is returned to the caller. -/
theorem serveLoop_accept_error_spec :
    (∀ (e : NetError) (rest : List AcceptEvent) (logs : List String),
       e.isTimeout = true →
       serveLoop (AcceptEvent.acceptError e :: rest) logs
         = serveLoop rest (logs ++ ["Accept timed out"])) ∧
    (∀ (e : NetError) (rest : List AcceptEvent) (logs : List String),
       e.isTimeout = false → e.isClosed = true →
       serveLoop (AcceptEvent.acceptError e :: rest) logs
         = (ServeOutcome.cleanReturn, logs ++ ["Listener closed"])) ∧
    (∀ (e : NetError) (rest : List AcceptEvent) (logs : List String),
       e.isTimeout = false → e.isClosed = false →
       serveLoop (AcceptEvent.acceptError e :: rest) logs
         = (ServeOutcome.acceptErrorReturn e, logs)) ∧
    (∀ (n : Nat) (e e2 : NetError) (logs : List String),
       e.isTimeout = true → e2.isTimeout = false → e2.isClosed = true →
       (serveLoop
          (List.replicate n (AcceptEvent.acceptError e)
            ++ [AcceptEvent.acceptError e2]) logs).1
         = ServeOutcome.cleanReturn) := by
  refine ⟨?_, ?_, ?_, ?_⟩
  · intro e rest logs h
    simp [serveLoop, h]
  · intro e rest logs h1 h2
    simp [serveLoop, h1, h2]
  · intro e rest logs h1 h2
    simp [serveLoop, h1, h2]
  · intro n e e2 logs h1 h2 h3
    induction n generalizing logs with
    | zero => simp [serveLoop, h2, h3]
    | succ k ih => simpa [serveLoop, h1] using ih (logs ++ ["Accept timed out"])

/-- C5 witness: two timeouts followed by a closed error end the loop
cleanly; a non-timeout non-closed error at the head is returned. -/
theorem serveLoop_accept_error_spec_witness :
    (serveLoop
      (List.replicate 2
          (AcceptEvent.acceptError { isTimeout := true, isClosed := false, msg := "i/o timeout" })
        ++ [AcceptEvent.acceptError { isTimeout := false, isClosed := true, msg := "use of closed network connection" }])
      []).1 = ServeOutcome.cleanReturn ∧
    serveLoop
      [AcceptEvent.acceptError { isTimeout := false, isClosed := false, msg := "accept: bad file descriptor" }]
      []
      = (ServeOutcome.acceptErrorReturn
          { isTimeout := false, isClosed := false, msg := "accept: bad file descriptor" }, []) :=
  ⟨serveLoop_accept_error_spec.2.2.2 2 _ _ [] rfl rfl rfl,
   serveLoop_accept_error_spec.2.2.1 _ [] [] rfl rfl⟩

/-- C8: `Stop` returns exactly the logger-shutdown result — nil when the
logger shuts down cleanly — while a listener-close error only appears in
the log output and the pool-stop result influences nothing. -/
theorem stop_spec :
    (∀ (ctxErr listenerCloseErr poolStopResult loggerShutdownErr : Option GoError),
       (Stop ctxErr listenerCloseErr poolStopResult loggerShutdownErr).1
         = loggerShutdownErr) ∧
    (∀ (ctxErr : Option GoError) (e : GoError)
       (poolStopResult loggerShutdownErr : Option GoError),
       e.message ∈ (Stop ctxErr (some e) poolStopResult loggerShutdownErr).2) ∧
    (∀ (ctxErr listenerCloseErr : Option GoError)
       (pool1 pool2 loggerShutdownErr : Option GoError),
       Stop ctxErr listenerCloseErr pool1 loggerShutdownErr
         = Stop ctxErr listenerCloseErr pool2 loggerShutdownErr) := by
  refine ⟨?_, ?_, ?_⟩
  · intro ctxErr listenerCloseErr poolStopResult loggerShutdownErr
    unfold Stop
    cases loggerShutdownErr <;> rfl
  · intro ctxErr e poolStopResult loggerShutdownErr
    unfold Stop
    cases loggerShutdownErr <;> cases ctxErr <;> simp
  · intro ctxErr listenerCloseErr pool1 pool2 loggerShutdownErr
    rfl

/-- C8 witness: with a failing listener close and a clean logger shutdown,
`Stop` returns nil and the close error text is only logged; a logger
error is the returned one. -/
theorem stop_spec_witness :
    (Stop none (some (GoError.other "close failed")) (some (GoError.other "pool"))
        none).1 = none ∧
    (GoError.other "close failed").message
      ∈ (Stop none (some (GoError.other "close failed")) (some (GoError.other "pool"))
          none).2 ∧
    (Stop none none none (some (GoError.other "logger jam"))).1
      = some (GoError.other "logger jam") :=
  ⟨stop_spec.1 none _ _ none,
   stop_spec.2.1 none _ _ none,
   stop_spec.1 none none none _⟩

/-- C6 counterexample: with an empty channel-handler table, an incoming
channel of the unregistered type `bogus-type` is dispatched to the
default handler, whose action is to accept the channel — it is not
rejected with an `unknown channel type` rejection, contradicting the
claim as stated. -/
theorem unknown_channel_not_rejected :
    (lookupChannelHandler (fun _ => none) (fun _ => none)
        { channelType := "bogus-type", acceptResult := Except.ok [] }
        { channelType := "bogus-type", acceptResult := Except.ok [] }).action
      = ChannelAction.accept ∧
    (lookupChannelHandler (fun _ => none) (fun _ => none)
        { channelType := "bogus-type", acceptResult := Except.ok [] }
        { channelType := "bogus-type", acceptResult := Except.ok [] }).action
      ≠ ChannelAction.reject "unknown channel type" := by
  constructor
  · rfl
  · intro h
    simp [lookupChannelHandler, DefaultChannelHandler] at h

/-- C6 amended: an incoming channel whose declared type has no entry in
`channelHandlers` is dispatched to `DefaultChannelHandler` rather than
silently dropped: the default handler accepts the channel (it does not
reject it as an unknown type) and services every request of the accepted
channel. -/
theorem unknown_channel_dispatch_spec :
    ∀ (channelHandlers : String → Option (NewChannel → ChannelResult))
      (requestHandlers : String → Option (Request → RequestResult))
      (channel : NewChannel),
      channelHandlers channel.channelType = none →
      lookupChannelHandler channelHandlers requestHandlers channel
          = DefaultChannelHandler requestHandlers ∧
      (DefaultChannelHandler requestHandlers channel).action = ChannelAction.accept ∧
      (∀ requests, channel.acceptResult = Except.ok requests →
        (DefaultChannelHandler requestHandlers channel).requestResults.length
          = requests.length) := by
  intro channelHandlers requestHandlers channel h
  refine ⟨by simp [lookupChannelHandler, h], ?_, ?_⟩
  · unfold DefaultChannelHandler
    cases channel.acceptResult <;> rfl
  · intro requests hacc
    simp [DefaultChannelHandler, hacc]

/-- C6 amended witness: a channel of unregistered type `bogus-type`
carrying one request is dispatched to the default handler, accepted, and
its one request serviced. -/
theorem unknown_channel_dispatch_spec_witness :
    lookupChannelHandler (fun _ => none) (fun _ => none)
        { channelType := "bogus-type",
          acceptResult := Except.ok [{ reqType := "env", payload := [1], wantReply := true }] }
        = DefaultChannelHandler (fun _ => none) ∧
    (DefaultChannelHandler (fun _ => none)
        { channelType := "bogus-type",
          acceptResult := Except.ok [{ reqType := "env", payload := [1], wantReply := true }] }).action
      = ChannelAction.accept ∧
    (DefaultChannelHandler (fun _ => none)
        { channelType := "bogus-type",
          acceptResult := Except.ok [{ reqType := "env", payload := [1], wantReply := true }] }).requestResults.length
      = 1 := by
  obtain ⟨h1, h2, h3⟩ := unknown_channel_dispatch_spec (fun _ => none) (fun _ => none)
    { channelType := "bogus-type",
      acceptResult := Except.ok [{ reqType := "env", payload := [1], wantReply := true }] }
    rfl
  exact ⟨h1, h2, h3 _ rfl⟩

/-- C7: a request whose type has no entry in `requestHandlers` is handled
by `DefaultRequestHandler`, which replies with a negative acknowledgment
(`Reply(false, nil)`) and returns no error — so such a request is never
left unanswered. -/
theorem default_request_handler_spec :
    ∀ (requestHandlers : String → Option (Request → RequestResult)) (req : Request),
      requestHandlers req.reqType = none →
      lookupRequestHandler requestHandlers req = DefaultRequestHandler ∧
      (DefaultRequestHandler req).reply
          = some { granted := false, payload := none } ∧
      (DefaultRequestHandler req).handlerErr = none ∧
      ((lookupRequestHandler requestHandlers req) req).reply.isSome = true := by
  intro requestHandlers req h
  refine ⟨by simp [lookupRequestHandler, h], rfl, rfl, ?_⟩
  simp [lookupRequestHandler, h, DefaultRequestHandler]

/-- C7 witness: a `keepalive` request with no registered handler and
want-reply set falls back to the default handler and gets the negative
no-payload reply with a nil handler error. -/
theorem default_request_handler_spec_witness :
    lookupRequestHandler (fun _ => none)
        { reqType := "keepalive", payload := [], wantReply := true }
        = DefaultRequestHandler ∧
    (DefaultRequestHandler
        { reqType := "keepalive", payload := [], wantReply := true }).reply
      = some { granted := false, payload := none } ∧
    (DefaultRequestHandler
        { reqType := "keepalive", payload := [], wantReply := true }).handlerErr
      = none := by
  obtain ⟨h1, h2, h3, _⟩ := default_request_handler_spec (fun _ => none)
    { reqType := "keepalive", payload := [], wantReply := true } rfl
  exact ⟨h1, h2, h3⟩

end Pepper
